import Mathlib

/-!
Shallow embedding of the PyAlchemyAdmin core (src/pyalchemyadmin/db_manager.py
and src/pyalchemyadmin/dialect_db_manager.py) and proofs of the frozen claims
about it.

Conventions of the embedding:
* Python exceptions are modelled by the `PyErr` type; a Python function that can
  raise returns `Except PyErr α`.
* Python `None` used as an integer is modelled by `Option Int`; interpolating it
  into an f-string yields the text "None", as `pyStrOptInt` records.
* A SQLAlchemy model class is modelled by `PyTable` (its `__tablename__` and the
  declared column names); a persisted record is a `PyRow`, an association list
  from column name to value, with `List.lookup` returning `none` for columns the
  record never set (SQL NULL).
* A Python `set` of strings iterates in an unspecified, hash-dependent order;
  functions that iterate such a set take the iteration order as an explicit
  `List String` argument, and order-independent facts are proved for every
  order.
-/

/-- Python exception values raised by the code under analysis: `ValueError`
raised by the managers themselves, `TypeError` raised by keyword-argument
binding, and `SQLAlchemyError` raised by the database backend. -/
inductive PyErr where
  | valueError (msg : String)
  | typeError (msg : String)
  | sqlalchemyError (msg : String)
deriving Repr, DecidableEq

/-- Boolean success test for an `Except PyErr` computation. -/
def exceptOk {α : Type} : Except PyErr α → Bool
  | .ok _ => true
  | .error _ => false

/-- Python `str` applied to a value that is either an `int` or `None`, as an
f-string does when interpolating the `port` parameter. -/
def pyStrOptInt : Option Int → String
  | none => "None"
  | some n => toString n

/-- `DBManager.AVAILABLE_DIALECTS` (db_manager.py line 14). -/
def AVAILABLE_DIALECTS : List String :=
  ["postgresql", "mysql", "oracle", "mssql", "sqlite"]

/-- `DBManager.AVAILABLE_ENGINES` (db_manager.py lines 15-21); `dict.get`
semantics: `none` for a dialect that is not a key. -/
def AVAILABLE_ENGINES : String → Option (List String)
  | "postgresql" => some ["psycopg2", "pg8000", "asyncpg"]
  | "mysql" => some ["mysqldb", "pymysql"]
  | "oracle" => some ["cx_oracle"]
  | "mssql" => some ["pyodbc", "pymssql"]
  | "sqlite" => some [""]
  | _ => none

/-- `DBManager._construct_database_url` (db_manager.py lines 75-82).
Python truthiness of the `engine` string is `engine ≠ ""`. -/
def construct_database_url (dialect database user password host : String)
    (port : Option Int) (engine : String) : String :=
  if dialect = "sqlite" then
    if database ≠ ":memory:" then "sqlite:///" ++ database else "sqlite://"
  else
    let engine_spec := if engine ≠ "" then dialect ++ "+" ++ engine else dialect
    engine_spec ++ "://" ++ user ++ ":" ++ password ++ "@" ++ host ++ ":"
      ++ pyStrOptInt port ++ "/" ++ database

/-- `DBManager.__init__` (db_manager.py lines 23-73): the dialect and engine
validation followed by URL construction.  The subsequent `create_engine` /
`sessionmaker` calls perform no validation of their own that the claims
concern; the returned value is the `_database_url` the instance stores. -/
def dbManagerInit (database user password host : String) (port : Option Int)
    (dialect : String) (engine : String) : Except PyErr String :=
  if dialect ∉ AVAILABLE_DIALECTS then
    .error (.valueError ("Dialect '" ++ dialect ++ "' is not supported."))
  else if engine ≠ "" ∧ engine ∉ (AVAILABLE_ENGINES dialect).getD [] then
    .error (.valueError
      ("Engine '" ++ engine ++ "' is not supported for dialect '" ++ dialect ++ "'."))
  else
    .ok (construct_database_url dialect database user password host port engine)

/-- C1: building the connection descriptor is pure and deterministic (equal
inputs give the identical string), and the mapping is: sqlite with database
":memory:" gives "sqlite://"; sqlite with any other database gives
"sqlite:///" followed by exactly that value; any other dialect gives
dialect[+engine]://user:password@host:port/database, the "+engine" segment
omitted when the engine string is empty. -/
theorem construct_database_url_mapping
    (dialect database user password host : String) (port : Option Int)
    (engine : String) :
    construct_database_url dialect database user password host port engine
      = construct_database_url dialect database user password host port engine
    ∧ (dialect = "sqlite" → database = ":memory:" →
        construct_database_url dialect database user password host port engine
          = "sqlite://")
    ∧ (dialect = "sqlite" → database ≠ ":memory:" →
        construct_database_url dialect database user password host port engine
          = "sqlite:///" ++ database)
    ∧ (dialect ≠ "sqlite" → engine = "" →
        construct_database_url dialect database user password host port engine
          = dialect ++ "://" ++ user ++ ":" ++ password ++ "@" ++ host ++ ":"
            ++ pyStrOptInt port ++ "/" ++ database)
    ∧ (dialect ≠ "sqlite" → engine ≠ "" →
        construct_database_url dialect database user password host port engine
          = dialect ++ "+" ++ engine ++ "://" ++ user ++ ":" ++ password ++ "@"
            ++ host ++ ":" ++ pyStrOptInt port ++ "/" ++ database) := by
  refine ⟨rfl, ?_, ?_, ?_, ?_⟩ <;> intro h1 h2 <;>
    simp [construct_database_url, h1, h2]

/-- Witness for C1: each branch of the mapping evaluated at a concrete
configuration. -/
theorem construct_database_url_mapping_witness :
    construct_database_url "sqlite" ":memory:" "" "" "" none "" = "sqlite://"
    ∧ construct_database_url "sqlite" "app.db" "" "" "" none ""
        = "sqlite:///" ++ "app.db"
    ∧ construct_database_url "postgresql" "postgres" "admin" "pw" "127.0.0.1"
        (some 7776) ""
        = "postgresql" ++ "://" ++ "admin" ++ ":" ++ "pw" ++ "@" ++ "127.0.0.1"
          ++ ":" ++ pyStrOptInt (some 7776) ++ "/" ++ "postgres"
    ∧ construct_database_url "postgresql" "postgres" "admin" "pw" "127.0.0.1"
        (some 7776) "psycopg2"
        = "postgresql" ++ "+" ++ "psycopg2" ++ "://" ++ "admin" ++ ":" ++ "pw"
          ++ "@" ++ "127.0.0.1" ++ ":" ++ pyStrOptInt (some 7776) ++ "/"
          ++ "postgres" :=
  ⟨(construct_database_url_mapping "sqlite" ":memory:" "" "" "" none "").2.1
      rfl rfl,
   (construct_database_url_mapping "sqlite" "app.db" "" "" "" none "").2.2.1
      rfl (by decide),
   (construct_database_url_mapping "postgresql" "postgres" "admin" "pw"
      "127.0.0.1" (some 7776) "").2.2.2.1 (by decide) rfl,
   (construct_database_url_mapping "postgresql" "postgres" "admin" "pw"
      "127.0.0.1" (some 7776) "psycopg2").2.2.2.2 (by decide) (by decide)⟩

/-- C5: constructing a manager fails with a `ValueError` when the dialect is
not one of the five supported ones; it fails with a `ValueError` when the
engine string is non-empty and not in the dialect's allowed-engine list; and
with a supported dialect an empty engine string is always accepted. -/
theorem dbManagerInit_validation
    (database user password host : String) (port : Option Int)
    (dialect engine : String) :
    (dialect ∉ AVAILABLE_DIALECTS →
      dbManagerInit database user password host port dialect engine
        = .error (.valueError ("Dialect '" ++ dialect ++ "' is not supported.")))
    ∧ (dialect ∈ AVAILABLE_DIALECTS → engine ≠ "" →
        engine ∉ (AVAILABLE_ENGINES dialect).getD [] →
        dbManagerInit database user password host port dialect engine
          = .error (.valueError ("Engine '" ++ engine
              ++ "' is not supported for dialect '" ++ dialect ++ "'.")))
    ∧ (dialect ∈ AVAILABLE_DIALECTS →
        (engine = "" ∨ engine ∈ (AVAILABLE_ENGINES dialect).getD []) →
        exceptOk (dbManagerInit database user password host port dialect engine)
          = true) := by
  refine ⟨?_, ?_, ?_⟩
  · intro h
    simp [dbManagerInit, h]
  · intro h1 h2 h3
    simp [dbManagerInit, h1, h2, h3]
  · intro h1 h2
    rcases h2 with h2 | h2 <;>
      simp [dbManagerInit, h1, h2, exceptOk]

/-- Witness for C5: the unsupported dialect "sybase" is rejected; the engine
"pg8000" is rejected for dialect "mysql" but the empty engine is accepted
there. -/
theorem dbManagerInit_validation_witness :
    dbManagerInit "db" "u" "p" "h" (some 1) "sybase" ""
      = .error (.valueError ("Dialect '" ++ "sybase" ++ "' is not supported."))
    ∧ dbManagerInit "db" "u" "p" "h" (some 1) "mysql" "pg8000"
      = .error (.valueError ("Engine '" ++ "pg8000"
          ++ "' is not supported for dialect '" ++ "mysql" ++ "'."))
    ∧ exceptOk (dbManagerInit "db" "u" "p" "h" (some 1) "mysql" "") = true :=
  ⟨(dbManagerInit_validation "db" "u" "p" "h" (some 1) "sybase" "").1
      (by decide),
   (dbManagerInit_validation "db" "u" "p" "h" (some 1) "mysql" "pg8000").2.1
      (by decide) (by decide) (by decide),
   (dbManagerInit_validation "db" "u" "p" "h" (some 1) "mysql" "").2.2
      (by decide) (.inl rfl)⟩

/-- A SQLAlchemy declarative model class as the managers see it: its
`__tablename__` and the declared column names (`inspect(table).columns.keys()`,
db_manager.py lines 97-102). -/
structure PyTable where
  tablename : String
  columns : List String
deriving Repr, DecidableEq

/-- `DBManager._has_column` (db_manager.py lines 97-102): membership of the
name in the declared column list. -/
def has_column (table : PyTable) (column_name : String) : Bool :=
  column_name ∈ table.columns

/-- `DBManager._validate_column_existence` (db_manager.py lines 104-111).  The
source iterates `set(args) | set(kwargs.keys())`; a Python string set iterates
in an unspecified hash-dependent order, so the embedding receives that
iteration order as the list `columns_to_check` and raises on the first name of
the list that is not a declared column. -/
def validate_column_existence (table : PyTable) (columns_to_check : List String) :
    Except PyErr Unit :=
  match columns_to_check with
  | [] => .ok ()
  | column :: rest =>
    if has_column table column then
      validate_column_existence table rest
    else
      .error (.valueError ("Column '" ++ column ++ "' does not exist in table '"
        ++ table.tablename ++ "'."))

theorem validate_column_existence_ok_iff (table : PyTable)
    (columns_to_check : List String) :
    validate_column_existence table columns_to_check = .ok ()
      ↔ ∀ c ∈ columns_to_check, c ∈ table.columns := by
  induction columns_to_check with
  | nil => simp [validate_column_existence]
  | cons column rest ih =>
    by_cases h : has_column table column
    · have hc : column ∈ table.columns := by
        simpa [has_column] using h
      simp [validate_column_existence, h, ih, hc]
    · have hc : column ∉ table.columns := by
        simpa [has_column] using h
      simp [validate_column_existence, h, hc]


/-- C3 (amended): column validation succeeds exactly when every requested name
is a declared column of the table, and on failure the raised `ValueError`
names the table and the offending column, namely the first name of the
(unspecified) set-iteration order that is not declared -- not necessarily the
lexicographically first offender. -/
theorem validate_column_existence_correct (table : PyTable)
    (columns_to_check : List String) :
    (validate_column_existence table columns_to_check = .ok ()
      ↔ ∀ c ∈ columns_to_check, c ∈ table.columns)
    ∧ (∀ c, columns_to_check.find? (fun x => ! has_column table x) = some c →
        validate_column_existence table columns_to_check
          = .error (.valueError ("Column '" ++ c ++ "' does not exist in table '"
              ++ table.tablename ++ "'."))) := by
  refine ⟨validate_column_existence_ok_iff table columns_to_check, ?_⟩
  induction columns_to_check with
  | nil => simp
  | cons column rest ih =>
    intro c hc
    by_cases h : has_column table column
    · rw [List.find?_cons_of_neg] at hc
      · simpa [validate_column_existence, h] using ih c hc
      · simp [h]
    · rw [List.find?_cons_of_pos] at hc
      · cases hc
        simp [validate_column_existence, h]
      · simp [h]

/-- Witness for C3 (amended): on table "project" with columns ["name", "note"],
checking ["note", "stage"] fails naming column "stage" and table "project",
while checking ["note", "name"] succeeds. -/
theorem validate_column_existence_correct_witness :
    (validate_column_existence ⟨"project", ["name", "note"]⟩ ["note", "name"]
        = .ok ()
      ↔ ∀ c ∈ ["note", "name"], c ∈ ["name", "note"])
    ∧ validate_column_existence ⟨"project", ["name", "note"]⟩ ["note", "stage"]
        = .error (.valueError ("Column '" ++ "stage"
            ++ "' does not exist in table '" ++ "project" ++ "'.")) :=
  ⟨(validate_column_existence_correct ⟨"project", ["name", "note"]⟩
      ["note", "name"]).1,
   (validate_column_existence_correct ⟨"project", ["name", "note"]⟩
      ["note", "stage"]).2 "stage" (by decide)⟩

/-- Counterexample to C3 as stated: the reported offending column is the first
one in the set's iteration order, not the lexicographically first offender.
On the table "t" with declared columns ["a"], the requested set containing
"b" and "c" may iterate as ["c", "b"] (Python string-set order is
hash-dependent); the code then reports "c", yet "b" is also an undeclared
requested column and "b" < "c". -/
theorem validate_column_existence_not_lex_first :
    validate_column_existence ⟨"t", ["a"]⟩ ["c", "b"]
      = .error (.valueError ("Column '" ++ "c" ++ "' does not exist in table '"
          ++ "t" ++ "'."))
    ∧ "b" ∈ ["c", "b"] ∧ "b" ∉ (["a"] : List String) ∧ "b".data < "c".data := by
  refine ⟨rfl, by decide, by decide, by decide⟩

/-- `PostgreDBManager.lock_table_command` (dialect_db_manager.py lines 52-53);
`text(...)` is modelled by the SQL string it wraps, a method falling through
with `pass` (returning `None`) by `none`. -/
def postgre_lock_table_command (table_name : String) : Option String :=
  some ("LOCK TABLE " ++ table_name ++ " IN EXCLUSIVE MODE")

/-- `MySQLDBManager.lock_table_command` (dialect_db_manager.py lines 60-61). -/
def mysql_lock_table_command (table_name : String) : Option String :=
  some ("LOCK TABLES " ++ table_name ++ " WRITE")

/-- `OracleDBManager.lock_table_command` (dialect_db_manager.py lines 68-69). -/
def oracle_lock_table_command (table_name : String) : Option String :=
  some ("LOCK TABLE " ++ table_name ++ " IN EXCLUSIVE MODE")

/-- `MicrosoftSQLServerDBManager.lock_table_command` (dialect_db_manager.py
lines 76-77). -/
def mssql_lock_table_command (table_name : String) : Option String :=
  some ("SELECT * FROM " ++ table_name ++ " WITH (TABLOCKX)")

/-- `SQLiteDBManager.lock_table_command` (dialect_db_manager.py lines 102-104):
the body is `pass`, so the method returns `None`. -/
def sqlite_lock_table_command (_table_name : String) : Option String :=
  none

/-- C6: for every table name the per-dialect lock-command generators produce
"LOCK TABLE name IN EXCLUSIVE MODE" for Postgres and Oracle, "LOCK TABLES
name WRITE" for MySQL, "SELECT * FROM name WITH (TABLOCKX)" for SQL Server,
and no lock command at all for sqlite. -/
theorem lock_table_command_per_dialect (table_name : String) :
    postgre_lock_table_command table_name
      = some ("LOCK TABLE " ++ table_name ++ " IN EXCLUSIVE MODE")
    ∧ oracle_lock_table_command table_name
      = some ("LOCK TABLE " ++ table_name ++ " IN EXCLUSIVE MODE")
    ∧ mysql_lock_table_command table_name
      = some ("LOCK TABLES " ++ table_name ++ " WRITE")
    ∧ mssql_lock_table_command table_name
      = some ("SELECT * FROM " ++ table_name ++ " WITH (TABLOCKX)")
    ∧ sqlite_lock_table_command table_name = none :=
  ⟨rfl, rfl, rfl, rfl, rfl⟩


/-- A persisted record: an association list from column name to value.
`List.lookup` returns `none` for a column the record never set (SQL NULL). -/
abbrev PyRow := List (String × String)

/-- Python truthiness of a value that is `None` or a list: `None` and the
empty list are falsy. -/
def pyTruthyOptList {α : Type} : Option (List α) → Bool
  | none => false
  | some l => !l.isEmpty

/-- The simple equality filters of `query(...).filter_by(**filters)`: every
filtered column of the row holds exactly the given value. -/
def row_matches (filters : List (String × String)) (row : PyRow) : Bool :=
  filters.all (fun kv => row.lookup kv.1 == some kv.2)

/-- A row passes the composed `WHERE` clause: the equality filters plus every
caller-supplied complex condition, ANDed (db_manager.py lines 289-292 and the
identical loops in `update`, `delete`, `exists`). -/
def row_selected (complex_conditions : List (PyRow → Bool))
    (filters : List (String × String)) (row : PyRow) : Bool :=
  row_matches filters row && complex_conditions.all (fun c => c row)

/-- The rows a composed query yields, in table order. -/
def query_rows (rows : List PyRow) (complex_conditions : List (PyRow → Bool))
    (filters : List (String × String)) : List PyRow :=
  rows.filter (row_selected complex_conditions filters)

/-- `query.with_entities(*[getattr(table, col) for col in return_columns])`
applied to one row: the tuple of the row's values at the projected columns. -/
def project_row (return_columns : List String) (row : PyRow) :
    List (Option String) :=
  return_columns.map (fun c => row.lookup c)

/-- A value produced by `retrieve`: a full model instance or, when
`return_columns` was given, a projected tuple. -/
inductive Entity where
  | full (row : PyRow)
  | proj (vals : List (Option String))
deriving Repr, DecidableEq

/-- The result of `retrieve`: `query.all()` under fetch mode "all",
`query.first()` under fetch mode "one". -/
inductive FetchResult where
  | allRecs (es : List Entity)
  | oneRec (e : Option Entity)
deriving Repr, DecidableEq

/-- `DBManager.create` (db_manager.py lines 174-202) acting on the table state
`rows`.  `backend` injects the backend fault the `except SQLAlchemyError`
clause can see: `some e` means the session operations inside the `try` raise
`SQLAlchemyError(e)` before anything is committed (the session context then
rolls the transaction back on close, leaving the state unchanged), and the
clause re-raises `ValueError` with the message prefix of line 202.  On
success the new record holds exactly the supplied fields. -/
def create (table : PyTable) (rows : List PyRow)
    (fields : List (String × String)) (backend : Option String) :
    Except PyErr (List PyRow) := do
  validate_column_existence table (fields.map Prod.fst)
  match backend with
  | some e =>
    .error (.valueError ("An error occurred while creating a record: " ++ e))
  | none => .ok (rows ++ [fields])

/-- `DBManager.bulk_create` (db_manager.py lines 204-239): no-op on an empty
record list, then per-record column validation, then a single bulk insert
whose backend failure is re-raised as `ValueError` (line 239). -/
def bulk_create (table : PyTable) (rows : List PyRow)
    (records : List (List (String × String))) (backend : Option String) :
    Except PyErr (List PyRow) :=
  if records = [] then .ok rows
  else do
    records.forM (fun r => validate_column_existence table (r.map Prod.fst))
    match backend with
    | some e =>
      .error (.valueError ("An error occurred while creating records: " ++ e))
    | none => .ok (rows ++ records)

/-- `DBManager.retrieve` (db_manager.py lines 241-300): fetch-mode check,
column validation over `return_columns` and the filter keys, query
composition, optional projection, backend failure re-raised as `ValueError`
(line 299). -/
def retrieve (table : PyTable) (rows : List PyRow)
    (complex_conditions : List (PyRow → Bool)) (return_columns : List String)
    (fetch_mode : String) (filters : List (String × String))
    (backend : Option String) : Except PyErr FetchResult :=
  if fetch_mode ∉ ["all", "one"] then
    .error (.valueError "Invalid fetch mode. Use 'all' or 'one'.")
  else do
    validate_column_existence table (return_columns ++ filters.map Prod.fst)
    match backend with
    | some e =>
      .error (.valueError ("An error occurred while retrieving records: " ++ e))
    | none =>
      let matched := query_rows rows complex_conditions filters
      let entities :=
        if return_columns ≠ [] then
          matched.map (fun r => Entity.proj (project_row return_columns r))
        else matched.map Entity.full
      .ok (if fetch_mode = "all" then .allRecs entities else .oneRec entities.head?)

/-- `query.update(update_values)` on one selected row: the updated columns take
the new values, every other column keeps its value. -/
def update_row (update_values : List (String × String)) (row : PyRow) : PyRow :=
  update_values ++ row

/-- `DBManager.update` (db_manager.py lines 302-345) acting on the table
state: empty-update check (line 327), column validation, then all selected
rows take the new values; a backend failure is re-raised as `ValueError`
(line 345). -/
def update (table : PyTable) (rows : List PyRow)
    (update_values : List (String × String))
    (complex_conditions : List (PyRow → Bool))
    (filters : List (String × String)) (backend : Option String) :
    Except PyErr (List PyRow) :=
  if update_values = [] then .error (.valueError "No update values provided.")
  else do
    validate_column_existence table
      (update_values.map Prod.fst ++ filters.map Prod.fst)
    match backend with
    | some e =>
      .error (.valueError ("An error occurred while updating records: " ++ e))
    | none =>
      .ok (rows.map (fun r =>
        if row_selected complex_conditions filters r then
          update_row update_values r
        else r))

/-- `DBManager.delete` (db_manager.py lines 347-402) acting on the table
state.  Returns the remaining rows and the value the Python function returns:
the pre-delete projection when `return_columns` was given and the captured
list is non-empty (Python truthiness, line 400), else `None`.  The
`error_when_empty` check runs after `session.commit()` (lines 393-396) and
raises a `ValueError` that the `except SQLAlchemyError` clause does not
catch; a backend failure is re-raised as `ValueError` (line 398). -/
def delete (table : PyTable) (rows : List PyRow)
    (complex_conditions : List (PyRow → Bool)) (return_columns : List String)
    (error_when_empty : Bool) (filters : List (String × String))
    (backend : Option String) :
    Except PyErr (List PyRow × Option (List (List (Option String)))) := do
  validate_column_existence table (return_columns ++ filters.map Prod.fst)
  match backend with
  | some e =>
    .error (.valueError ("An error occurred while deleting records: " ++ e))
  | none =>
    let matched := query_rows rows complex_conditions filters
    let deleted_records : Option (List (List (Option String))) :=
      if return_columns ≠ [] then some (matched.map (project_row return_columns))
      else none
    let remaining :=
      rows.filter (fun r => !row_selected complex_conditions filters r)
    if error_when_empty ∧ matched.length = 0 then
      .error (.valueError "No records were deleted.")
    else
      .ok (remaining,
        if return_columns ≠ [] ∧ pyTruthyOptList deleted_records then
          deleted_records
        else none)

/-- `DBManager.exists` (db_manager.py lines 406-431) read on the table state:
column validation, query composition, `query.first() is not None`.  The body
has no `try`/`except`, so a backend failure propagates as the raw
`SQLAlchemyError`. -/
def exists_records (table : PyTable) (rows : List PyRow)
    (complex_conditions : List (PyRow → Bool))
    (filters : List (String × String)) (backend : Option String) :
    Except PyErr Bool := do
  validate_column_existence table (filters.map Prod.fst)
  match backend with
  | some e => .error (.sqlalchemyError e)
  | none => .ok (!(query_rows rows complex_conditions filters).isEmpty)

/-- `DBManager.execute` (db_manager.py lines 124-170): parameters are bound,
never interpolated; with `fetch` the result set `result_rows` is returned,
otherwise the transaction commits and `None` is returned.  The body has no
`try`/`except`, so a backend failure propagates as the raw
`SQLAlchemyError`. -/
def execute (query_string : String) (params : List (String × String))
    (fetch : Bool) (result_rows : List PyRow) (backend : Option String) :
    Except PyErr (Option (List PyRow)) :=
  match backend with
  | some e => .error (.sqlalchemyError e)
  | none => if fetch then .ok (some result_rows) else .ok none


/-- One session-level step of the body of `DBManager.update` (db_manager.py
lines 332-343): composing the filtered query (line 334), appending one complex
condition (line 337), applying the row lock `with_for_update` (line 340),
mutating the selected rows (line 342), committing (line 343).  The action
`lockTableCmd` stands for executing the SQL that `lock_table_command`
generates; it is part of the action alphabet so that its absence from the
trace is expressible. -/
inductive SessionAction where
  | queryFilterBy
  | queryFilterCond
  | withForUpdate
  | applyUpdateValues
  | commitTxn
  | lockTableCmd (sql : String)
deriving Repr, DecidableEq

/-- The action consults the per-dialect lock-command strategy. -/
def SessionAction.isLockTableCmd : SessionAction → Bool
  | .lockTableCmd _ => true
  | _ => false

/-- The action mutates rows. -/
def SessionAction.isMutation : SessionAction → Bool
  | .applyUpdateValues => true
  | _ => false

/-- The ordered sequence of session actions `DBManager.update` performs
(db_manager.py lines 302-345), transcribed statement by statement from the
source: guard on empty update values, column validation, then `filter_by`,
the complex-condition loop, `with_for_update`, `query.update`, `commit`.
The source never calls `self.lock_table_command`. -/
def update_session_trace (table : PyTable)
    (update_values : List (String × String)) (num_complex_conditions : Nat)
    (filters : List (String × String)) : Except PyErr (List SessionAction) :=
  if update_values = [] then .error (.valueError "No update values provided.")
  else do
    validate_column_existence table
      (update_values.map Prod.fst ++ filters.map Prod.fst)
    .ok ([SessionAction.queryFilterBy]
      ++ List.replicate num_complex_conditions SessionAction.queryFilterCond
      ++ [SessionAction.withForUpdate, SessionAction.applyUpdateValues,
          SessionAction.commitTxn])

theorem pyBindError {α β : Type} (e : PyErr) (f : α → Except PyErr β) :
    (Bind.bind (Except.error e) f : Except PyErr β) = .error e := rfl

theorem pyBindOk {α β : Type} (a : α) (f : α → Except PyErr β) :
    (Bind.bind (Except.ok a) f : Except PyErr β) = f a := rfl

/-- C2 (amended): for every successful `update` call the session trace ends
with the row lock, the mutation and the commit, in that order; every action
before the lock only composes the query (no mutation); and no action in the
whole trace consults the per-dialect `lock_table_command` strategy -- the lock
is the query's `FOR UPDATE` clause (`with_for_update`), not a generated lock
statement. -/
theorem update_locks_before_mutation (table : PyTable)
    (update_values : List (String × String)) (num_complex_conditions : Nat)
    (filters : List (String × String)) (tr : List SessionAction)
    (h : update_session_trace table update_values num_complex_conditions filters
      = .ok tr) :
    (∃ pre, tr = pre ++ [SessionAction.withForUpdate,
        SessionAction.applyUpdateValues, SessionAction.commitTxn]
      ∧ ∀ a ∈ pre, a.isMutation = false)
    ∧ ∀ a ∈ tr, a.isLockTableCmd = false := by
  by_cases hv : update_values = []
  · simp [update_session_trace, hv] at h
  · rw [update_session_trace, if_neg hv] at h
    rcases hval : validate_column_existence table
        (update_values.map Prod.fst ++ filters.map Prod.fst) with errv | u
    · rw [hval, pyBindError] at h
      simp at h
    · cases u
      rw [hval, pyBindOk] at h
      injection h with h
      subst h
      constructor
      · refine ⟨SessionAction.queryFilterBy ::
          List.replicate num_complex_conditions SessionAction.queryFilterCond,
          by simp, ?_⟩
        intro a ha
        rcases List.mem_cons.mp ha with rfl | ha
        · rfl
        · rw [List.eq_of_mem_replicate ha]; rfl
      · intro a ha
        rcases List.mem_append.mp ha with ha | ha
        · rcases List.mem_append.mp ha with ha | ha
          · rw [List.mem_singleton.mp ha]; rfl
          · rw [List.eq_of_mem_replicate ha]; rfl
        · rcases List.mem_cons.mp ha with rfl | ha
          · rfl
          · rcases List.mem_cons.mp ha with rfl | ha
            · rfl
            · rw [List.mem_singleton.mp ha]; rfl

/-- Witness for C2 (amended): the trace of a concrete `update` call. -/
theorem update_locks_before_mutation_witness :
    (∃ pre, [SessionAction.queryFilterBy, SessionAction.withForUpdate,
        SessionAction.applyUpdateValues, SessionAction.commitTxn]
      = pre ++ [SessionAction.withForUpdate, SessionAction.applyUpdateValues,
          SessionAction.commitTxn]
      ∧ ∀ a ∈ pre, a.isMutation = false)
    ∧ ∀ a ∈ [SessionAction.queryFilterBy, SessionAction.withForUpdate,
        SessionAction.applyUpdateValues, SessionAction.commitTxn],
      a.isLockTableCmd = false :=
  update_locks_before_mutation ⟨"project", ["name", "note"]⟩ [("note", "x")] 0
    [("name", "P2")] _ (by rfl)

/-- Counterexample to C2 as stated: the lock is not obtained by consulting the
per-dialect lock-command strategy.  A concrete successful `update` call
produces a session trace containing no `lock_table_command` consultation at
all: the only locking step is the `with_for_update` clause. -/
theorem update_never_consults_lock_strategy :
    update_session_trace ⟨"project", ["name", "note"]⟩ [("note", "x")] 0
        [("name", "P2")]
      = .ok [SessionAction.queryFilterBy, SessionAction.withForUpdate,
          SessionAction.applyUpdateValues, SessionAction.commitTxn]
    ∧ ([SessionAction.queryFilterBy, SessionAction.withForUpdate,
        SessionAction.applyUpdateValues, SessionAction.commitTxn].all
          (fun a => !a.isLockTableCmd)) = true := by
  exact ⟨rfl, by decide⟩


/-- C4 (amended): `create`, `bulk_create`, `retrieve`, `update` and `delete`
catch a backend failure at the session boundary (the session context rolls
the transaction back; nothing is committed) and re-raise it as a `ValueError`
whose message wraps and preserves the original backend error text; `exists`
and raw `execute`, whose bodies have no `try`/`except`, let the raw
`SQLAlchemyError` propagate as the sole signal. -/
theorem session_boundary_error_policy
    (table : PyTable) (rows : List PyRow) (e : String)
    (fields update_values filters : List (String × String))
    (records : List (List (String × String)))
    (return_columns : List String) (conds : List (PyRow → Bool))
    (fetch_mode query_string : String) (params : List (String × String))
    (fetchFlag : Bool) (result_rows : List PyRow) :
    (validate_column_existence table (fields.map Prod.fst) = .ok () →
      create table rows fields (some e)
        = .error (.valueError ("An error occurred while creating a record: " ++ e)))
    ∧ (records ≠ [] →
        records.forM (fun r => validate_column_existence table (r.map Prod.fst))
          = .ok () →
        bulk_create table rows records (some e)
          = .error (.valueError ("An error occurred while creating records: " ++ e)))
    ∧ (fetch_mode ∈ ["all", "one"] →
        validate_column_existence table (return_columns ++ filters.map Prod.fst)
          = .ok () →
        retrieve table rows conds return_columns fetch_mode filters (some e)
          = .error (.valueError ("An error occurred while retrieving records: " ++ e)))
    ∧ (update_values ≠ [] →
        validate_column_existence table
            (update_values.map Prod.fst ++ filters.map Prod.fst) = .ok () →
        update table rows update_values conds filters (some e)
          = .error (.valueError ("An error occurred while updating records: " ++ e)))
    ∧ (∀ error_when_empty,
        validate_column_existence table (return_columns ++ filters.map Prod.fst)
          = .ok () →
        delete table rows conds return_columns error_when_empty filters (some e)
          = .error (.valueError ("An error occurred while deleting records: " ++ e)))
    ∧ (validate_column_existence table (filters.map Prod.fst) = .ok () →
        exists_records table rows conds filters (some e)
          = .error (.sqlalchemyError e))
    ∧ execute query_string params fetchFlag result_rows (some e)
        = .error (.sqlalchemyError e) := by
  refine ⟨?_, ?_, ?_, ?_, ?_, ?_, rfl⟩
  · intro hval
    rw [create, hval, pyBindOk]
  · intro hne hval
    rw [bulk_create, if_neg hne, hval, pyBindOk]
  · intro hm hval
    rw [retrieve, if_neg (not_not_intro hm), hval, pyBindOk]
  · intro hne hval
    rw [update, if_neg hne, hval, pyBindOk]
  · intro error_when_empty hval
    rw [delete, hval, pyBindOk]
  · intro hval
    rw [exists_records, hval, pyBindOk]

/-- Witness for C4 (amended): concrete backend failures through three of the
operations. -/
theorem session_boundary_error_policy_witness :
    create ⟨"users", ["name"]⟩ [] [("name", "jo")] (some "boom")
      = .error (.valueError ("An error occurred while creating a record: " ++ "boom"))
    ∧ update ⟨"users", ["name"]⟩ [] [("name", "jo")] [] [] (some "boom")
      = .error (.valueError ("An error occurred while updating records: " ++ "boom"))
    ∧ exists_records ⟨"users", ["name"]⟩ [] [] [] (some "boom")
      = .error (.sqlalchemyError "boom") :=
  ⟨(session_boundary_error_policy ⟨"users", ["name"]⟩ [] "boom" [("name", "jo")]
      [("name", "jo")] [] [] [] [] "all" "" [] true []).1 rfl,
   (session_boundary_error_policy ⟨"users", ["name"]⟩ [] "boom" [("name", "jo")]
      [("name", "jo")] [] [] [] [] "all" "" [] true []).2.2.2.1 (by decide) rfl,
   (session_boundary_error_policy ⟨"users", ["name"]⟩ [] "boom" [("name", "jo")]
      [("name", "jo")] [] [] [] [] "all" "" [] true []).2.2.2.2.2.1 rfl⟩

/-- Counterexample to C4 as stated: not every operation wraps the backend
failure.  A backend failure inside `exists` (and likewise raw `execute`)
propagates as the raw `SQLAlchemyError` -- it is not re-raised as any
`ValueError` -- so the raw backend error is the sole signal for these two
operations. -/
theorem exists_lets_backend_error_propagate :
    exists_records ⟨"users", ["name"]⟩ [] [] [] (some "connection lost")
      = .error (.sqlalchemyError "connection lost")
    ∧ execute "SELECT 1" [] true [] (some "connection lost")
      = .error (.sqlalchemyError "connection lost")
    ∧ ∀ msg, PyErr.sqlalchemyError "connection lost" ≠ PyErr.valueError msg := by
  refine ⟨rfl, rfl, ?_⟩
  intro msg hmsg
  exact PyErr.noConfusion hmsg


/-- C7: a delete whose filters match zero rows fails with the
"No records were deleted." `ValueError` when `error_when_empty` is true, and
succeeds silently with zero rows affected (state unchanged, nothing returned)
when `error_when_empty` is false. -/
theorem delete_zero_rows_policy (table : PyTable) (rows : List PyRow)
    (conds : List (PyRow → Bool)) (return_columns : List String)
    (filters : List (String × String))
    (hval : validate_column_existence table
      (return_columns ++ filters.map Prod.fst) = .ok ())
    (hmatch : query_rows rows conds filters = []) :
    delete table rows conds return_columns true filters none
      = .error (.valueError "No records were deleted.")
    ∧ delete table rows conds return_columns false filters none
      = .ok (rows, none) := by
  have hsel : ∀ r ∈ rows, ¬ row_selected conds filters r := by
    rw [query_rows] at hmatch
    exact List.filter_eq_nil_iff.mp hmatch
  have hfil : rows.filter (fun r => !row_selected conds filters r) = rows := by
    apply List.filter_eq_self.mpr
    intro a ha
    simpa using hsel a ha
  constructor
  · simp [delete, hval, pyBindOk, hmatch]
  · by_cases hrc : return_columns = []
    · have hval2 : validate_column_existence table (filters.map Prod.fst)
          = .ok () := by
        simpa [hrc] using hval
      simp [delete, hval2, pyBindOk, hmatch, hfil, pyTruthyOptList, hrc]
    · simp [delete, hval, pyBindOk, hmatch, hfil, pyTruthyOptList, hrc]

/-- Witness for C7: deleting with a filter matching no row of a one-row
table. -/
theorem delete_zero_rows_policy_witness :
    delete ⟨"users", ["name"]⟩ [[("name", "jo")]] [] [] true [("name", "zz")]
        none
      = .error (.valueError "No records were deleted.")
    ∧ delete ⟨"users", ["name"]⟩ [[("name", "jo")]] [] [] false [("name", "zz")]
        none
      = .ok ([[("name", "jo")]], none) :=
  delete_zero_rows_policy ⟨"users", ["name"]⟩ [[("name", "jo")]] [] []
    [("name", "zz")] rfl rfl

/-- C10: for a delete call with a non-empty `return_columns` projection, a
call matching zero rows returns `None` rather than an empty list; any
successful call returns `some l` only for non-empty `l`; and a call matching
at least one row returns the non-empty captured projection. -/
theorem delete_return_columns_policy (table : PyTable) (rows : List PyRow)
    (conds : List (PyRow → Bool)) (return_columns : List String)
    (filters : List (String × String))
    (hrc : return_columns ≠ [])
    (hval : validate_column_existence table
      (return_columns ++ filters.map Prod.fst) = .ok ()) :
    (query_rows rows conds filters = [] →
      delete table rows conds return_columns false filters none
        = .ok (rows, none))
    ∧ (∀ error_when_empty st ret l,
        delete table rows conds return_columns error_when_empty filters none
          = .ok (st, ret) →
        ret = some l → l ≠ [])
    ∧ (query_rows rows conds filters ≠ [] →
        delete table rows conds return_columns false filters none
          = .ok (rows.filter (fun r => !row_selected conds filters r),
              some ((query_rows rows conds filters).map
                (project_row return_columns)))) := by
  refine ⟨?_, ?_, ?_⟩
  · intro hmatch
    have hsel : ∀ r ∈ rows, ¬ row_selected conds filters r := by
      rw [query_rows] at hmatch
      exact List.filter_eq_nil_iff.mp hmatch
    have hfil : rows.filter (fun r => !row_selected conds filters r) = rows := by
      apply List.filter_eq_self.mpr
      intro a ha
      simpa using hsel a ha
    simp [delete, hval, pyBindOk, hmatch, hfil, pyTruthyOptList, hrc]
  · intro error_when_empty st ret l hdel hret
    rcases hq : query_rows rows conds filters with _ | ⟨hd, tl⟩
    · cases error_when_empty
      · simp [delete, hval, pyBindOk, hq, hrc, pyTruthyOptList] at hdel
        rw [← hdel.2] at hret
        exact Option.noConfusion hret
      · simp [delete, hval, pyBindOk, hq] at hdel
    · simp [delete, hval, pyBindOk, hq, hrc, pyTruthyOptList] at hdel
      rw [← hdel.2] at hret
      injection hret with hl
      rw [← hl]
      simp
  · intro hne
    rcases hq : query_rows rows conds filters with _ | ⟨hd, tl⟩
    · exact absurd hq hne
    · simp [delete, hval, pyBindOk, hq, hrc, pyTruthyOptList]

/-- Witness for C10: a projecting delete on a one-row table, with a filter
matching zero rows (returns `None`) and with a filter matching the row
(returns the non-empty projection). -/
theorem delete_return_columns_policy_witness :
    delete ⟨"users", ["name"]⟩ [[("name", "jo")]] [] ["name"] false
        [("name", "zz")] none
      = .ok ([[("name", "jo")]], none)
    ∧ delete ⟨"users", ["name"]⟩ [[("name", "jo")]] [] ["name"] false
        [("name", "jo")] none
      = .ok ([], some [[some "jo"]]) := by
  constructor
  · exact (delete_return_columns_policy ⟨"users", ["name"]⟩ [[("name", "jo")]]
      [] ["name"] [("name", "zz")] (by decide) rfl).1 rfl
  · have h := (delete_return_columns_policy ⟨"users", ["name"]⟩
      [[("name", "jo")]] [] ["name"] [("name", "jo")] (by decide) rfl).2.2
      (by decide)
    simpa using h


theorem lookup_of_mem_of_nodup_keys {l : List (String × String)}
    (h : (l.map Prod.fst).Nodup) {kv : String × String} (hm : kv ∈ l) :
    l.lookup kv.1 = some kv.2 := by
  induction l with
  | nil => cases hm
  | cons hd tl ih =>
    obtain ⟨k, v⟩ := hd
    rcases List.mem_cons.mp hm with rfl | hm2
    · simp [List.lookup]
    · have hk : kv.1 ∈ tl.map Prod.fst := List.mem_map_of_mem Prod.fst hm2
      have hne : kv.1 ≠ k := by
        intro he
        rw [he] at hk
        exact (List.nodup_cons.mp h).1 hk
      have hbeq : (kv.1 == k) = false := beq_eq_false_iff_ne.mpr hne
      simp only [List.lookup, hbeq]
      exact ih (List.nodup_cons.mp h).2 hm2

theorem row_matches_self {fields : List (String × String)}
    (h : (fields.map Prod.fst).Nodup) : row_matches fields fields = true := by
  rw [row_matches, List.all_eq_true]
  intro kv hkv
  rw [beq_iff_eq]
  exact lookup_of_mem_of_nodup_keys h hkv

/-- C8: creating a record from a field map with valid, duplicate-free column
names and then retrieving with equality filters equal to those fields returns
a record whose value at every supplied column is exactly the supplied value
(create/retrieve round-trip). -/
theorem create_retrieve_roundtrip (table : PyTable) (rows : List PyRow)
    (fields : List (String × String))
    (hcols : ∀ c ∈ fields.map Prod.fst, c ∈ table.columns)
    (hnodup : (fields.map Prod.fst).Nodup) :
    ∃ rows2, create table rows fields none = .ok rows2
      ∧ ∃ es, retrieve table rows2 [] [] "all" fields none = .ok (.allRecs es)
        ∧ ∃ r, Entity.full r ∈ es ∧ ∀ kv ∈ fields, r.lookup kv.1 = some kv.2 := by
  have hval : validate_column_existence table (fields.map Prod.fst) = .ok () :=
    (validate_column_existence_ok_iff table (fields.map Prod.fst)).mpr hcols
  refine ⟨rows ++ [fields], ?_, ?_⟩
  · rw [create, hval, pyBindOk]
  · have hval2 : validate_column_existence table
        ([] ++ fields.map Prod.fst) = .ok () := by
      simpa using hval
    refine ⟨(query_rows (rows ++ [fields]) [] fields).map Entity.full, ?_, ?_⟩
    · rw [retrieve, if_neg (by decide), hval2, pyBindOk]
      simp
    · refine ⟨fields, ?_, ?_⟩
      · apply List.mem_map_of_mem
        rw [query_rows]
        apply List.mem_filter.mpr
        refine ⟨List.mem_append_right rows (List.mem_singleton.mpr rfl), ?_⟩
        rw [row_selected, row_matches_self hnodup]
        simp
      · intro kv hkv
        exact lookup_of_mem_of_nodup_keys hnodup hkv

/-- Witness for C8: a concrete round-trip on the two-column table
"employees". -/
theorem create_retrieve_roundtrip_witness :
    ∃ rows2,
      create ⟨"employees", ["name", "dept"]⟩ [] [("name", "jo"), ("dept", "rd")]
        none = .ok rows2
      ∧ ∃ es, retrieve ⟨"employees", ["name", "dept"]⟩ rows2 [] [] "all"
          [("name", "jo"), ("dept", "rd")] none = .ok (.allRecs es)
        ∧ ∃ r, Entity.full r ∈ es
            ∧ ∀ kv ∈ [("name", "jo"), ("dept", "rd")],
              r.lookup kv.1 = some kv.2 :=
  create_retrieve_roundtrip ⟨"employees", ["name", "dept"]⟩ []
    [("name", "jo"), ("dept", "rd")] (by decide) (by decide)


/-- The keyword parameter names of `DBManager.__init__` (db_manager.py
lines 23-34). -/
def db_manager_init_params : List String :=
  ["database", "user", "password", "host", "port", "dialect", "engine", "echo"]

/-- The keyword parameter names of `_DialectDBManager.__init__`
(dialect_db_manager.py lines 10-20); note there is no "dialect" parameter. -/
def dialect_db_manager_init_params : List String :=
  ["database", "user", "password", "host", "port", "engine", "echo"]

/-- Python keyword-argument binding: a call raises `TypeError` on the first
supplied keyword that is not a parameter name of the callee. -/
def bind_kwargs_check (param_names kwargs : List String) : Except PyErr Unit :=
  match kwargs.find? (fun k => !param_names.contains k) with
  | some k =>
    .error (.typeError ("__init__() got an unexpected keyword argument '"
      ++ k ++ "'"))
  | none => .ok ()

/-- `_DialectDBManager.__init__` (dialect_db_manager.py lines 10-45): replace
a `None` port with the class's `default_port`, then call
`DBManager.__init__` with the keywords database, user, password, host, port,
dialect, engine, echo (all of which `DBManager.__init__` accepts). -/
def dialect_manager_init (dialect : String) (default_port : Option Int)
    (database user password host : String) (port : Option Int)
    (engine : String) : Except PyErr String := do
  let port := match port with
    | none => default_port
    | some p => some p
  bind_kwargs_check db_manager_init_params
    ["database", "user", "password", "host", "port", "dialect", "engine",
     "echo"]
  dbManagerInit database user password host port dialect engine

/-- `PostgreDBManager` construction (dialect_db_manager.py lines 48-50):
dialect "postgresql", default port 5432. -/
def postgre_manager_init (database user password host : String)
    (port : Option Int) (engine : String) : Except PyErr String :=
  dialect_manager_init "postgresql" (some 5432) database user password host
    port engine

/-- `MySQLDBManager` construction (dialect_db_manager.py lines 56-58):
dialect "mysql", default port 3306. -/
def mysql_manager_init (database user password host : String)
    (port : Option Int) (engine : String) : Except PyErr String :=
  dialect_manager_init "mysql" (some 3306) database user password host port
    engine

/-- `OracleDBManager` construction (dialect_db_manager.py lines 64-66):
dialect "oracle", default port 1521. -/
def oracle_manager_init (database user password host : String)
    (port : Option Int) (engine : String) : Except PyErr String :=
  dialect_manager_init "oracle" (some 1521) database user password host port
    engine

/-- `MicrosoftSQLServerDBManager` construction (dialect_db_manager.py lines
72-74): dialect "mssql", default port 1433. -/
def mssql_manager_init (database user password host : String)
    (port : Option Int) (engine : String) : Except PyErr String :=
  dialect_manager_init "mssql" (some 1433) database user password host port
    engine

/-- `SQLiteDBManager.__init__` (dialect_db_manager.py lines 83-100): the
constructor accepts only `database` (and `echo`) and calls
`super().__init__(database=..., user="", password="", host="", port=None,
dialect=SQLiteDBManager.dialect, engine="", echo=echo)`.  The callee is
`_DialectDBManager.__init__`, whose parameters do not include "dialect", so
Python keyword binding is checked against `dialect_db_manager_init_params`
for exactly the keywords the source call supplies. -/
def sqlite_manager_init (database : String) : Except PyErr String := do
  bind_kwargs_check dialect_db_manager_init_params
    ["database", "user", "password", "host", "port", "dialect", "engine",
     "echo"]
  dialect_manager_init "sqlite" none database "" "" "" none ""

/-- C9: constructing a dialect-specific manager with no port substitutes the
dialect's default port into the connection descriptor -- 5432 for Postgres,
3306 for MySQL, 1521 for Oracle, 1433 for SQL Server -- while the sqlite
manager takes only a database path; but every sqlite construction in fact
raises `TypeError` because `SQLiteDBManager.__init__` passes the keyword
`dialect` to `_DialectDBManager.__init__`, which has no such parameter. -/
theorem manager_default_ports (database user password host : String) :
    postgre_manager_init database user password host none ""
      = .ok (construct_database_url "postgresql" database user password host
          (some 5432) "")
    ∧ mysql_manager_init database user password host none ""
      = .ok (construct_database_url "mysql" database user password host
          (some 3306) "")
    ∧ oracle_manager_init database user password host none ""
      = .ok (construct_database_url "oracle" database user password host
          (some 1521) "")
    ∧ mssql_manager_init database user password host none ""
      = .ok (construct_database_url "mssql" database user password host
          (some 1433) "")
    ∧ sqlite_manager_init database
      = .error (.typeError ("__init__() got an unexpected keyword argument '"
          ++ "dialect" ++ "'")) := by
  refine ⟨?_, ?_, ?_, ?_, rfl⟩ <;>
    simp [postgre_manager_init, mysql_manager_init, oracle_manager_init,
      mssql_manager_init, dialect_manager_init, bind_kwargs_check,
      db_manager_init_params, dbManagerInit, AVAILABLE_DIALECTS,
      AVAILABLE_ENGINES, pyBindOk]

